import Mathlib

/-!
Shallow embedding of the ShopEase catalog service (src/main.py): the data
model, the filter builder, the document normalizer, a model of the document
store behind the database layer, and the four catalog endpoints
(list_products, create_product, list_categories, seed_products).

The modules database.py and schemas.py of this repository are not under
src/, so the store operations (find, distinct, count, insertOne) and the
validated Product input shape are modelled from the spec (sections 4 and 6);
each such definition carries a doc comment starting with
"Modelled from the spec:".
-/

set_option maxRecDepth 8000

/-- ASCII case folding on a code point, modelling the case-insensitive
option i of the store regex match: uppercase letters map to lowercase,
every other code point is unchanged. -/
def foldCase (n : Nat) : Nat := if 65 ≤ n && n ≤ 90 then n + 32 else n

/-- Case-folded code points of a string. -/
def chars (s : String) : List Nat := s.data.map (fun c => foldCase c.toNat)

/-- Code point of the regex metacharacter dot. -/
def dotCode : Nat := 46

/-- One pattern code point against one subject code point: the dot matches
any character, any other pattern character matches itself (both sides are
already case folded). -/
def charMatch (p c : Nat) : Bool := p == dotCode || p == c

/-- Anchored match of a pattern at the head of the subject. -/
def matchHere : List Nat → List Nat → Bool
  | [], _ => true
  | _ :: _, [] => false
  | p :: ps, c :: cs => charMatch p c && matchHere ps cs

/-- Unanchored match: the pattern matches at some position of the subject. -/
def searchFrom : List Nat → List Nat → Bool
  | ps, [] => matchHere ps []
  | ps, c :: cs => matchHere ps (c :: cs) || searchFrom ps cs

/-- Modelled from the spec: the store-native regex search used by the
$regex filter with option i (the database layer is not under src/). The
regex dialect is modelled restricted to literal characters and the dot
metacharacter; the i option is modelled by case folding both sides. -/
def regexSearch (pat s : String) : Bool := searchFrom (chars pat) (chars s)

/-- Anchored literal comparison at the head of the subject. -/
def leadEq : List Nat → List Nat → Bool
  | [], _ => true
  | _ :: _, [] => false
  | p :: ps, c :: cs => p == c && leadEq ps cs

/-- Literal occurrence of the first list at some position of the second. -/
def containsAt : List Nat → List Nat → Bool
  | ps, [] => leadEq ps []
  | ps, c :: cs => leadEq ps (c :: cs) || containsAt ps cs

/-- Case-insensitive literal substring test: the semantics the spec ascribes
to the q parameter. -/
def substrCI (q s : String) : Bool := containsAt (chars q) (chars s)

/-- Code points of the regex metacharacters (dot, star, plus, question mark,
brackets, parentheses, braces, caret, dollar, backslash, pipe). -/
def metaCodes : List Nat := [46, 42, 43, 63, 91, 93, 40, 41, 123, 125, 94, 36, 92, 124]

/-- The string contains no regex metacharacter. -/
def noMetaChars (q : String) : Prop := ∀ c ∈ q.data, c.toNat ∉ metaCodes

instance (q : String) : Decidable (noMetaChars q) := by
  unfold noMetaChars; infer_instance

/-- A raw stored document: arbitrary shape, every catalog field optional,
plus the store-assigned identifier (the Mongo object id, modelled as a
natural number). Prices are modelled as rationals. -/
structure Doc where
  oid : Nat
  title : Option String := none
  description : Option String := none
  price : Option Rat := none
  category : Option String := none
  in_stock : Option Bool := none
  deriving DecidableEq

/-- A document to insert: a stored document without an identifier yet. -/
structure DocIn where
  title : Option String := none
  description : Option String := none
  price : Option Rat := none
  category : Option String := none
  in_stock : Option Bool := none
  deriving DecidableEq

/-- Attach a store-assigned identifier to a document being inserted. -/
def DocIn.withId (d : DocIn) (oid : Nat) : Doc :=
  { oid := oid, title := d.title, description := d.description,
    price := d.price, category := d.category, in_stock := d.in_stock }

/-- Modelled from the spec: the document store behind the database layer
(database.py is not under src/). docs is the product collection in insertion
order, nextId the next identifier to assign. insertFail injects a store
failure: after that many further successful inserts, insertOne raises with
the given message. readFail, when set, makes distinct and count raise with
the given message. -/
structure Store where
  docs : List Doc := []
  nextId : Nat := 1
  insertFail : Option (Nat × String) := none
  readFail : Option String := none
  deriving DecidableEq

/-- Modelled from the spec: count_documents over the whole collection;
raises on an injected store failure. -/
def count_documents (s : Store) : Except String Nat :=
  match s.readFail with
  | some m => Except.error m
  | none => Except.ok s.docs.length

/-- Modelled from the spec: the distinct values of the category field
across all documents, each value once, in first-occurrence order (the store
order is unspecified; the endpoint sorts afterwards); raises on an injected
store failure. -/
def distinctCategories (s : Store) : Except String (List String) :=
  match s.readFail with
  | some m => Except.error m
  | none => Except.ok (s.docs.filterMap (fun d => d.category)).dedup

/-- Modelled from the spec: create_document (insertOne) on an optional store
handle. When the handle is unavailable, writes raise a distinguishable
store-unavailable condition (spec section 6); otherwise the document is
appended with the next identifier, unless an injected failure fires.
Returns the new store and the assigned identifier. -/
def create_document (db : Option Store) (d : DocIn) : Except String (Store × Nat) :=
  match db with
  | none => Except.error "Database not available"
  | some s =>
    match s.insertFail with
    | some (0, m) => Except.error m
    | some (n + 1, m) =>
      Except.ok
        ({ s with
            docs := s.docs ++ [d.withId s.nextId]
            nextId := s.nextId + 1
            insertFail := some (n, m) },
         s.nextId)
    | none =>
      Except.ok
        ({ s with
            docs := s.docs ++ [d.withId s.nextId]
            nextId := s.nextId + 1 },
         s.nextId)

/-- The filter dict shape built by list_products (main.py lines 67-75): an
optional category equality clause and an optional $or regex clause holding
the raw q string. -/
structure FilterDict where
  category : Option String := none
  qOr : Option String := none
  deriving DecidableEq

/-- Python truthiness of an optional string: None and the empty string are
falsy (main.py tests the parameters with `if category:` and `if q:`). -/
def effParam : Option String → Option String
  | none => none
  | some s => if s = "" then none else some s

/-- The filter built by list_products from the category and q query
parameters (main.py lines 67-75). -/
def build_filter (category q : Option String) : FilterDict :=
  { category := effParam category, qOr := effParam q }

/-- Modelled from the spec: store-native evaluation of a built filter
against one document. The equality clause matches documents whose category
field carries exactly that value; the $or clause matches when the title or
the description field exists and the case-insensitive regex search for the
raw q string succeeds in it. -/
def matchesFilter (f : FilterDict) (d : Doc) : Bool :=
  (match f.category with
   | none => true
   | some c => d.category == some c) &&
  (match f.qOr with
   | none => true
   | some q =>
     (match d.title with | none => false | some t => regexSearch q t) ||
     (match d.description with | none => false | some t => regexSearch q t))

/-- Modelled from the spec: get_documents (find) over the product
collection; reads degrade to the empty sequence when the store handle is
unavailable. -/
def get_documents (db : Option Store) (f : FilterDict) : List Doc :=
  match db with
  | none => []
  | some s => s.docs.filter (fun d => matchesFilter f d)

/-- The public product shape (main.py ProductOut): stringified id, required
title and category, optional description, price a float (modelled as a
rational), in_stock a boolean. -/
structure ProductOut where
  id : String
  title : String
  description : Option String := none
  price : Rat
  category : String
  in_stock : Bool
  deriving DecidableEq

/-- Normalization of one stored document: the ProductOut construction in
list_products (main.py lines 80-87). title and category are required
non-optional str fields of the pydantic model, so a missing field (d.get
returns None) makes the constructor raise a validation error. price
defaults to 0 and in_stock to True through the d.get defaults. -/
def normalizeDoc (d : Doc) : Except String ProductOut :=
  match d.title, d.category with
  | some t, some c =>
    Except.ok { id := toString d.oid, title := t, description := d.description,
                price := d.price.getD 0, category := c, in_stock := d.in_stock.getD true }
  | _, _ => Except.error "validation error: none is not an allowed value"

/-- JSON values, as serialized by the transport for a ProductOut. -/
inductive JVal where
  | s (v : String)
  | num (v : Rat)
  | b (v : Bool)
  | null
  deriving DecidableEq

/-- The JSON object serialized for one ProductOut under the framework
default (optional fields are not excluded from the response: an absent
description is emitted as null, not dropped). -/
def productJson (p : ProductOut) : List (String × JVal) :=
  [("id", JVal.s p.id),
   ("title", JVal.s p.title),
   ("description", match p.description with | none => JVal.null | some v => JVal.s v),
   ("price", JVal.num p.price),
   ("category", JVal.s p.category),
   ("in_stock", JVal.b p.in_stock)]

/-- An HTTP error raised by an endpoint: status code and detail string. -/
structure HTTPException where
  status_code : Nat
  detail : String
  deriving DecidableEq

/-- GET /api/products (main.py lines 64-89): build the filter, fetch the
matching documents, normalize each in order; a normalization failure aborts
the request (the endpoint installs no handler of its own). -/
def list_products (db : Option Store) (category q : Option String) :
    Except String (List ProductOut) :=
  (get_documents db (build_filter category q)).mapM normalizeDoc

/-- Modelled from the spec: the validated input shape of create_product
(schemas.py is not under src/): required title, price, category; optional
description; in_stock defaulting to true. -/
structure Product where
  title : String
  price : Rat
  category : String
  description : Option String := none
  in_stock : Bool := true
  deriving DecidableEq

/-- The document inserted for a validated Product input. -/
def Product.toDocIn (p : Product) : DocIn :=
  { title := some p.title, description := p.description, price := some p.price,
    category := some p.category, in_stock := some p.in_stock }

/-- POST /api/products (main.py lines 92-99): insert the document; any
exception is surfaced as HTTP 500 with detail str(e), the raw message in
full. Returns the store state after the call together with the response
(the stringified assigned identifier). -/
def create_product (db : Option Store) (p : Product) :
    Option Store × Except HTTPException String :=
  match create_document db p.toDocIn with
  | Except.error m => (db, Except.error { status_code := 500, detail := m })
  | Except.ok (s, oid) => (some s, Except.ok (toString oid))

/-- Lexicographic comparison of code-point lists: the Python string order
used by list.sort(). -/
def lexLe : List Nat → List Nat → Bool
  | [], _ => true
  | _ :: _, [] => false
  | a :: as, b :: bs => if a < b then true else if a = b then lexLe as bs else false

/-- Python string comparison, lexicographic on code points. -/
def pyLe (a b : String) : Bool := lexLe (a.data.map Char.toNat) (b.data.map Char.toNat)

/-- GET /api/categories (main.py lines 102-110): the distinct category
values when the handle is available, else the empty list; sorted ascending
in place (categories.sort(), modelled as a sort with respect to pyLe); any
exception is surfaced as HTTP 500 with detail str(e). -/
def list_categories (db : Option Store) : Except HTTPException (List String) :=
  match (match db with
         | none => Except.ok []
         | some s => distinctCategories s) with
  | Except.error m => Except.error { status_code := 500, detail := m }
  | Except.ok cats => Except.ok (List.insertionSort (fun a b => pyLe a b = true) cats)

/-- The five sample products of seed_products (main.py lines 120-156). -/
def samples : List DocIn :=
  [{ title := some "Classic White T-Shirt",
     description := some "Soft cotton tee for everyday wear.",
     price := some ((1499 : Rat) / 100), category := some "Clothes", in_stock := some true },
   { title := some "Organic Granola",
     description := some "Crunchy, honey-sweetened breakfast granola.",
     price := some ((749 : Rat) / 100), category := some "Food", in_stock := some true },
   { title := some "Bluetooth Headphones",
     description := some "Noise-isolating on-ear headphones with 20h battery.",
     price := some ((5999 : Rat) / 100), category := some "Electronics", in_stock := some true },
   { title := some "Stainless Water Bottle",
     description := some "Keeps drinks cold for 24h and hot for 12h.",
     price := some ((1999 : Rat) / 100), category := some "Home", in_stock := some true },
   { title := some "Gourmet Dark Chocolate",
     description := some "70% cacao premium chocolate bar.",
     price := some ((399 : Rat) / 100), category := some "Food", in_stock := some true }]

/-- The for loop of seed_products: insert the samples one at a time,
stopping at the first exception; returns the store state reached together
with the raised message, if any. -/
def insertLoop (db : Option Store) : List DocIn → Option Store × Option String
  | [] => (db, none)
  | d :: rest =>
    match create_document db d with
    | Except.error m => (db, some m)
    | Except.ok (s, _) => insertLoop (some s) rest

/-- The success payload of POST /api/seed: either seeded true with the
inserted count, or seeded false with the existing count. -/
inductive SeedResp where
  | seeded (count : Nat)
  | noop (existing : Nat)
  deriving DecidableEq

/-- POST /api/seed (main.py lines 113-161): count the collection (0 when
the handle is unavailable); if positive, report seeded false with the
existing count; otherwise insert the five samples one at a time and report
seeded true with count 5. Any exception is surfaced as HTTP 500 with detail
str(e). Returns the store state after the call together with the
response. -/
def seed_products (db : Option Store) : Option Store × Except HTTPException SeedResp :=
  match (match db with
         | none => Except.ok 0
         | some s => count_documents s) with
  | Except.error m => (db, Except.error { status_code := 500, detail := m })
  | Except.ok n =>
    if 0 < n then (db, Except.ok (SeedResp.noop n))
    else
      match insertLoop db samples with
      | (db2, some m) => (db2, Except.error { status_code := 500, detail := m })
      | (db2, none) => (db2, Except.ok (SeedResp.seeded samples.length))

/-- An initially empty, available store. -/
def emptyStore : Store := {}

/-- The documents obtained by inserting a list in order starting at a given
identifier. -/
def docsFrom (n : Nat) : List DocIn → List Doc
  | [] => []
  | d :: rest => d.withId n :: docsFrom (n + 1) rest

/-- The store after a successful seed of the empty store. -/
def seededStore : Store := { docs := docsFrom 1 samples, nextId := 6 }

/-! ## Supporting lemmas -/

/-- A pattern that does not contain the dot code matches at the head of a
subject exactly when the literal head comparison succeeds. -/
theorem matchHere_eq_leadEq (ps : List Nat) (h : dotCode ∉ ps) :
    ∀ cs : List Nat, matchHere ps cs = leadEq ps cs := by
  induction ps with
  | nil => intro cs; cases cs <;> rfl
  | cons p ps ih =>
    intro cs
    cases cs with
    | nil => rfl
    | cons c cs =>
      have hp : p ≠ dotCode := fun he => h (he ▸ List.mem_cons_self p ps)
      have hps : dotCode ∉ ps := fun hm => h (List.mem_cons_of_mem p hm)
      have hpb : (p == dotCode) = false := beq_eq_false_iff_ne.mpr hp
      simp [matchHere, leadEq, charMatch, ih hps, hpb]

/-- A pattern that does not contain the dot code searches in a subject
exactly when the literal substring test succeeds. -/
theorem searchFrom_eq_containsAt (ps : List Nat) (h : dotCode ∉ ps) :
    ∀ cs : List Nat, searchFrom ps cs = containsAt ps cs := by
  intro cs
  induction cs with
  | nil => simp [searchFrom, containsAt, matchHere_eq_leadEq ps h]
  | cons c cs ih => simp [searchFrom, containsAt, matchHere_eq_leadEq ps h, ih]

/-- A string without regex metacharacters has no dot among its case-folded
code points. -/
theorem noMeta_dot_not_mem (q : String) (h : noMetaChars q) : dotCode ∉ chars q := by
  intro hm
  unfold chars at hm
  rcases List.mem_map.1 hm with ⟨c, hc, he⟩
  have h46 : c.toNat = 46 := by
    unfold foldCase dotCode at he
    split at he
    · rename_i hcond
      simp only [Bool.and_eq_true, decide_eq_true_eq] at hcond
      omega
    · exact he
  have hmem : c.toNat ∈ metaCodes := by rw [h46]; decide
  exact h c hc hmem

/-- The Python code-point order is total. -/
theorem lexLe_total : ∀ as bs : List Nat, lexLe as bs = true ∨ lexLe bs as = true := by
  intro as
  induction as with
  | nil => exact fun bs => Or.inl rfl
  | cons a as ih =>
    intro bs
    cases bs with
    | nil => exact Or.inr rfl
    | cons b bs =>
      rcases Nat.lt_trichotomy a b with h | h | h
      · exact Or.inl (by simp [lexLe, h])
      · subst h
        rcases ih bs with hh | hh
        · exact Or.inl (by simp [lexLe, hh])
        · exact Or.inr (by simp [lexLe, hh])
      · exact Or.inr (by simp [lexLe, h])

/-- The Python code-point order is transitive. -/
theorem lexLe_trans : ∀ as bs cs : List Nat,
    lexLe as bs = true → lexLe bs cs = true → lexLe as cs = true := by
  intro as
  induction as with
  | nil => exact fun _ _ _ _ => rfl
  | cons a as ih =>
    intro bs cs hab hbc
    cases bs with
    | nil => simp [lexLe] at hab
    | cons b bs =>
      cases cs with
      | nil => simp [lexLe] at hbc
      | cons c cs =>
        rcases Nat.lt_trichotomy a b with h1 | h1 | h1
        · rcases Nat.lt_trichotomy b c with h2 | h2 | h2
          · simp [lexLe, Nat.lt_trans h1 h2]
          · subst h2; simp [lexLe, h1]
          · exfalso
            simp [lexLe, Nat.lt_asymm h2, Nat.ne_of_gt h2] at hbc
        · subst h1
          have hab2 : lexLe as bs = true := by simpa [lexLe] using hab
          rcases Nat.lt_trichotomy a c with h2 | h2 | h2
          · simp [lexLe, h2]
          · subst h2
            have hbc2 : lexLe bs cs = true := by simpa [lexLe] using hbc
            simpa [lexLe] using ih bs cs hab2 hbc2
          · exfalso
            simp [lexLe, Nat.lt_asymm h2, Nat.ne_of_gt h2] at hbc
        · exfalso
          simp [lexLe, Nat.lt_asymm h1, Nat.ne_of_gt h1] at hab

instance : IsTotal String (fun a b => pyLe a b = true) :=
  ⟨fun a b => lexLe_total (a.data.map Char.toNat) (b.data.map Char.toNat)⟩

instance : IsTrans String (fun a b => pyLe a b = true) :=
  ⟨fun a b c => lexLe_trans (a.data.map Char.toNat) (b.data.map Char.toNat)
    (c.data.map Char.toNat)⟩

/-! ## Claims -/

/-- Claim C1 as stated: the built filter matches exactly the documents whose
category equals the given category (when given) and whose title or
description case-insensitively contains q as a LITERAL substring (when
given); omitted parameters impose no constraint. -/
def specLiteralMatch (category q : Option String) (d : Doc) : Bool :=
  (match category with
   | none => true
   | some c => d.category == some c) &&
  (match q with
   | none => true
   | some qs =>
     (match d.title with | none => false | some t => substrCI qs t) ||
     (match d.description with | none => false | some t => substrCI qs t))

/-- The proposition claim C1 asserts of the code. -/
def claimC1 : Prop := ∀ (category q : Option String) (d : Doc),
  matchesFilter (build_filter category q) d = specLiteralMatch category q d

/-- C1 is false as stated: with q = "a.c" the built filter matches a document
titled "abc" (the dot is a regex metacharacter matching any character), yet
"a.c" is not a literal substring of "abc". -/
theorem C1_counterexample : ¬ claimC1 := fun h =>
  absurd (h none (some "a.c") { oid := 1, title := some "abc" }) (by decide)

/-- C1 (amended): the built filter applies category equality and
case-insensitive REGEX matching of the raw q string against title or
description, with parameters read by Python truthiness; when q contains no
regex metacharacter, the regex search coincides with literal
case-insensitive substring containment. -/
theorem C1_filter_regex_semantics :
    (∀ (category q : Option String) (d : Doc),
      matchesFilter (build_filter category q) d =
        ((match effParam category with
          | none => true
          | some c => d.category == some c) &&
         (match effParam q with
          | none => true
          | some qs =>
            (match d.title with | none => false | some t => regexSearch qs t) ||
            (match d.description with | none => false | some t => regexSearch qs t)))) ∧
    (∀ (q s : String), noMetaChars q → regexSearch q s = substrCI q s) := by
  constructor
  · intro category q d
    rfl
  · intro q s h
    exact searchFrom_eq_containsAt (chars q) (noMeta_dot_not_mem q h) (chars s)

/-- Witness for C1: concrete instantiation, with the no-metacharacter
hypothesis discharged on the string "choc". -/
theorem C1_filter_regex_semantics_witness :
    regexSearch "choc" "Gourmet Dark Chocolate" = substrCI "choc" "Gourmet Dark Chocolate" :=
  C1_filter_regex_semantics.2 "choc" "Gourmet Dark Chocolate" (by decide)

/-- C7: seeding against an unavailable store handle: the count check yields
0, so the sample insert is attempted; the first insertOne raises the
store-unavailable condition and the endpoint surfaces HTTP 500 rather than
reporting seeded=true. -/
theorem C7_seed_unavailable :
    insertLoop none samples = (none, some "Database not available") ∧
    seed_products none =
      (none, Except.error { status_code := 500, detail := "Database not available" }) :=
  ⟨rfl, rfl⟩

/-- C8: against a store holding exactly the five sample seed products, the
list operation with category "Food" and q "cacao" returns exactly the
Gourmet Dark Chocolate entry. -/
theorem C8_food_cacao :
    (seed_products (some emptyStore)).1 = some seededStore ∧
    list_products (some seededStore) (some "Food") (some "cacao") =
      Except.ok [{ id := "5", title := "Gourmet Dark Chocolate",
                   description := some "70% cacao premium chocolate bar.",
                   price := (399 : Rat) / 100, category := "Food", in_stock := true }] := by
  exact ⟨rfl, rfl⟩

/-- C9: at the list interface an empty-string parameter behaves exactly like
an omitted parameter, because the code tests the parameters for Python
truthiness rather than presence. -/
theorem C9_empty_params :
    ∀ (db : Option Store) (category q : Option String),
      list_products db (some "") q = list_products db none q ∧
      list_products db category (some "") = list_products db category none := by
  intro db category q
  exact ⟨rfl, rfl⟩

/-- C2: seeding twice in sequence from an initially empty, available store:
the first call inserts the five samples and reports seeded true with count
5; the second reports seeded false with existing 5; more generally, any
positive document count makes the seed operation a no-op reporting the
existing count. -/
theorem C2_seed_idempotent :
    seed_products (some emptyStore) = (some seededStore, Except.ok (SeedResp.seeded 5)) ∧
    seed_products (some seededStore) = (some seededStore, Except.ok (SeedResp.noop 5)) ∧
    ∀ s : Store, s.readFail = none → 0 < s.docs.length →
      seed_products (some s) = (some s, Except.ok (SeedResp.noop s.docs.length)) := by
  refine ⟨rfl, rfl, ?_⟩
  intro s h1 h2
  simp [seed_products, count_documents, h1, h2]

/-- Witness for C2: the generic no-op branch applied to the seeded store. -/
theorem C2_seed_idempotent_witness :
    seed_products (some seededStore) =
      (some seededStore, Except.ok (SeedResp.noop seededStore.docs.length)) :=
  C2_seed_idempotent.2.2 seededStore rfl (by decide)

/-- A raw store error message longer than 50 characters. -/
def longMsg : String :=
  "connection reset by peer while talking to the mongodb primary replica"

/-- The truncation property claim C3 asserts of one surfaced failure. -/
def truncatedDetail (raw : String) (h : HTTPException) : Prop :=
  h.detail.length ≤ 50 ∧ (50 < raw.length → h.detail ≠ raw)

/-- The proposition claim C3 asserts of the code: every store failure raised
during a catalog operation (distinct, count, insert) is surfaced with a
diagnostic truncated to at most about 50 characters, never the raw message
in full. -/
def claimC3 : Prop :=
  ∀ (s : Store) (m : String) (h : HTTPException),
    (s.readFail = some m → list_categories (some s) = Except.error h →
      truncatedDetail m h) ∧
    (s.readFail = some m → (seed_products (some s)).2 = Except.error h →
      truncatedDetail m h) ∧
    (s.insertFail = some (0, m) → ∀ p : Product,
      (create_product (some s) p).2 = Except.error h → truncatedDetail m h)

/-- C3 is false as stated: a 69-character store error raised by distinct is
surfaced by the categories endpoint with the full message as detail. -/
theorem C3_counterexample : ¬ claimC3 := fun hc =>
  absurd ((hc { readFail := some longMsg } longMsg
      { status_code := 500, detail := longMsg }).1 rfl rfl).1 (by decide)

/-- C3 (amended): store failures during distinct, count and insert are
surfaced as HTTP 500 whose detail is the raw underlying message in full; no
truncation occurs in the catalog endpoints (the 50-character truncation
exists only in the /test diagnostic endpoint). -/
theorem C3_raw_error_detail :
    ∀ (s : Store) (m : String),
      (s.readFail = some m →
        list_categories (some s) = Except.error { status_code := 500, detail := m } ∧
        (seed_products (some s)).2 = Except.error { status_code := 500, detail := m }) ∧
      (s.insertFail = some (0, m) → ∀ p : Product,
        (create_product (some s) p).2 = Except.error { status_code := 500, detail := m }) := by
  intro s m
  constructor
  · intro h
    constructor
    · simp [list_categories, distinctCategories, h]
    · simp [seed_products, count_documents, h]
  · intro h p
    simp [create_product, create_document, h]

/-- Witness for C3 (amended): the long distinct failure and the matching
count failure, surfaced in full. -/
theorem C3_raw_error_detail_witness :
    list_categories (some { readFail := some longMsg }) =
      Except.error { status_code := 500, detail := longMsg } ∧
    (seed_products (some { readFail := some longMsg })).2 =
      Except.error { status_code := 500, detail := longMsg } :=
  (C3_raw_error_detail { readFail := some longMsg } longMsg).1 rfl

/-- The proposition claim C4 asserts of the code: a stored document lacking
the title field normalizes without error, to an empty or null title. -/
def claimC4 : Prop := ∀ d : Doc, d.title = none →
  ∃ p, normalizeDoc d = Except.ok p ∧ p.title = ""

/-- C4 is false as stated: normalizing a concrete title-less document
raises a validation error instead of succeeding. -/
theorem C4_counterexample : ¬ claimC4 := fun hc => by
  rcases hc { oid := 1, category := some "Food" } rfl with ⟨p, hp, _⟩
  exact Except.noConfusion hp

/-- C4 (amended): normalization of a document lacking title FAILS with a
validation error: ProductOut.title is a required non-optional str field and
d.get("title") yields None, which the model constructor rejects; there is no
success with an empty or null title. -/
theorem C4_missing_title_fails :
    ∀ d : Doc, d.title = none →
      normalizeDoc d = Except.error "validation error: none is not an allowed value" := by
  intro d h
  unfold normalizeDoc
  rw [h]

/-- Witness for C4 (amended): a concrete title-less document. -/
theorem C4_missing_title_fails_witness :
    normalizeDoc { oid := 7, category := some "Food" } =
      Except.error "validation error: none is not an allowed value" :=
  C4_missing_title_fails { oid := 7, category := some "Food" } rfl

/-- The proposition claim C5 asserts of the code: normalization defaults a
missing price to 0 and a missing in_stock to true, and omits the
description key entirely from the serialized output when the stored
document lacks it. -/
def claimC5 : Prop :=
  ∀ (d : Doc) (p : ProductOut), normalizeDoc d = Except.ok p →
    (d.price = none → p.price = 0) ∧
    (d.in_stock = none → p.in_stock = true) ∧
    (d.description = none → "description" ∉ (productJson p).map Prod.fst)

/-- C5 is false in its description clause: for a concrete document without a
description the serialized output still carries the description key. -/
theorem C5_counterexample : ¬ claimC5 := fun hc =>
  ((hc { oid := 1, title := some "T", category := some "C" }
      { id := "1", title := "T", description := none, price := 0,
        category := "C", in_stock := true } rfl).2.2 rfl)
    (by decide)

/-- C5 (amended): a missing price defaults to 0 and a missing in_stock to
true; a missing description is carried as None and serialized as an
explicit null under the description key (the key is present in the output,
not omitted). -/
theorem C5_defaults :
    ∀ (d : Doc) (p : ProductOut), normalizeDoc d = Except.ok p →
      (d.price = none → p.price = 0) ∧
      (d.in_stock = none → p.in_stock = true) ∧
      (d.description = none →
        p.description = none ∧ ("description", JVal.null) ∈ productJson p) := by
  intro d p h
  unfold normalizeDoc at h
  cases ht : d.title with
  | none => rw [ht] at h; exact Except.noConfusion h
  | some tt =>
    cases hc : d.category with
    | none => rw [ht, hc] at h; exact Except.noConfusion h
    | some cc =>
      rw [ht, hc] at h
      injection h with h2
      subst h2
      refine ⟨fun hp => by simp [hp], fun hs => by simp [hs], fun hd => ?_⟩
      constructor
      · simp [hd]
      · rw [productJson]
        simp only [hd]
        exact List.mem_cons_of_mem _ (List.mem_cons_of_mem _ (List.mem_cons_self _ _))

/-- Witness for C5 (amended): a concrete document missing price, in_stock
and description. -/
theorem C5_defaults_witness :
    ((⟨"1", "T", none, 0, "C", true⟩ : ProductOut).price = 0 ∧
     (⟨"1", "T", none, 0, "C", true⟩ : ProductOut).in_stock = true ∧
     ((⟨"1", "T", none, 0, "C", true⟩ : ProductOut).description = none ∧
      ("description", JVal.null) ∈ productJson ⟨"1", "T", none, 0, "C", true⟩)) :=
  ⟨(C5_defaults { oid := 1, title := some "T", category := some "C" }
      ⟨"1", "T", none, 0, "C", true⟩ rfl).1 rfl,
   (C5_defaults { oid := 1, title := some "T", category := some "C" }
      ⟨"1", "T", none, 0, "C", true⟩ rfl).2.1 rfl,
   (C5_defaults { oid := 1, title := some "T", category := some "C" }
      ⟨"1", "T", none, 0, "C", true⟩ rfl).2.2 rfl⟩

/-- C6: the category listing returns each distinct category value exactly
once, sorted ascending in the Python string order, with no duplicates; when
the store handle is unavailable it returns the empty sequence rather than
an error. -/
theorem C6_categories_sorted :
    list_categories none = Except.ok [] ∧
    ∀ s : Store, s.readFail = none → ∀ l,
      list_categories (some s) = Except.ok l →
      l.Sorted (fun a b => pyLe a b = true) ∧ l.Nodup ∧
      ∀ c : String, c ∈ l ↔ ∃ d ∈ s.docs, d.category = some c := by
  refine ⟨rfl, ?_⟩
  intro s h l hl
  have hl2 : l = List.insertionSort (fun a b => pyLe a b = true)
      ((s.docs.filterMap (fun d => d.category)).dedup) := by
    simp [list_categories, distinctCategories, h] at hl
    exact hl.symm
  subst hl2
  refine ⟨List.sorted_insertionSort _ _, ?_, ?_⟩
  · exact (List.perm_insertionSort _ _).nodup_iff.mpr (List.nodup_dedup _)
  · intro c
    simp [List.mem_insertionSort, List.mem_dedup, List.mem_filterMap]

/-- A store with two categories listed out of order. -/
def twoCatStore : Store :=
  { docs := [{ oid := 1, category := some "b" }, { oid := 2, category := some "a" }] }

/-- Witness for C6: the sorted, duplicate-free listing of a concrete
two-category store. -/
theorem C6_categories_sorted_witness :
    (["a", "b"] : List String).Sorted (fun a b => pyLe a b = true) ∧
    (["a", "b"] : List String).Nodup ∧
    ∀ c : String, c ∈ (["a", "b"] : List String) ↔
      ∃ d ∈ twoCatStore.docs, d.category = some c :=
  C6_categories_sorted.2 twoCatStore rfl ["a", "b"] rfl

/-- C10: seeding is not atomic: when the insert of sample k+1 raises, the
first k samples stay inserted (the state is not rolled back) and the
endpoint surfaces HTTP 500 carrying the raised message. -/
theorem C10_partial_seed :
    ∀ (k : Nat) (m : String), k < 5 →
      seed_products (some { emptyStore with insertFail := some (k, m) }) =
        (some { docs := (docsFrom 1 samples).take k, nextId := k + 1,
                insertFail := some (0, m), readFail := none },
         Except.error { status_code := 500, detail := m }) := by
  intro k m hk
  interval_cases k <;> rfl

/-- Witness for C10: the third sample insert raising. -/
theorem C10_partial_seed_witness :
    seed_products (some { emptyStore with insertFail := some (2, "disk full") }) =
      (some { docs := (docsFrom 1 samples).take 2, nextId := 2 + 1,
              insertFail := some (0, "disk full"), readFail := none },
       Except.error { status_code := 500, detail := "disk full" }) :=
  C10_partial_seed 2 "disk full" (by decide)
